import Mathlib

/-!
Verification of the campus resource-sharing application (`app.py`).

The application is a single-file web app: authenticated users post listings
(title, description, category, optional file), listings are persisted to a
document store, and each submission is run through a three-stage
language-model pipeline (normalize, safety-screen, recommend).  This file
gives a shallow embedding of the pure control flow of that program:

* the three model stages are stubbed as functions `String → Except String String`
  (an `Except.error` models the underlying call raising a Python exception);
* external effects (model calls, blob uploads, store writes) are made
  observable by having each operation also return the list of external calls
  it performed, in order;
* the document store is a list of listings, document ids are list indices.
-/

namespace CampusShare

/-- Contiguous-substring test on character lists: does `sub` occur
contiguously inside the second list? -/
def pyInChars (sub : List Char) : List Char → Bool
  | [] => sub.isEmpty
  | c :: rest => sub.isPrefixOf (c :: rest) || pyInChars sub rest

/-- Python's substring test `sub in s` (on strings, `"" in s` is `True`). -/
def pyIn (sub s : String) : Bool :=
  pyInChars sub.toList s.toList

/-- Python's `str.lower()`, character by character (`Char.toLower` lowers
the ASCII range, which covers every token the program tests for). -/
def py_lower (s : String) : String :=
  String.mk (s.data.map Char.toLower)

/-- The three LLM chains of `app.py` (`stitch_agent`, `antigravity_agent`,
`gemini_agent`), stubbed as deterministic functions.  `Except.error e`
models the `.run` call raising an exception whose text is `e`. -/
structure Agents where
  stitch : String → Except String String
  antigravity : String → Except String String
  gemini : String → Except String String

/-- One observable call to an external service, with its argument. -/
inductive ExtCall where
  | modelNormalize (input : String)
  | modelScreen (input : String)
  | modelRecommend (input : String)
  | blobUpload (key : String)
  | storeAdd
deriving Repr, DecidableEq

def ExtCall.isModelCall : ExtCall → Bool
  | .modelNormalize _ => true
  | .modelScreen _ => true
  | .modelRecommend _ => true
  | _ => false

def ExtCall.isScreenCall : ExtCall → Bool
  | .modelScreen _ => true
  | _ => false

def ExtCall.isRecommendCall : ExtCall → Bool
  | .modelRecommend _ => true
  | _ => false

/-- The `except Exception as e: return f"⚠️ Agent error: {e}"` wrapper. -/
def agent_error (e : String) : String := "⚠️ Agent error: " ++ e

/-- `process_resource_with_agents` (app.py lines 74-83), instrumented with
the ordered list of model calls it performs.

```python
def process_resource_with_agents(resource_data):
    try:
        cleaned = stitch_agent.run(str(resource_data))
        safety = antigravity_agent.run(cleaned)
        if "rejected" in safety.lower():
            return f"❌ Rejected: {safety}"
        recommendations = gemini_agent.run(cleaned)
        return f"✅ Approved!\n\n**AI Recommendations:**\n{recommendations}"
    except Exception as e:
        return f"⚠️ Agent error: {str(e)}"
```
-/
def process_resource_with_agents (ag : Agents) (resource_data : String) :
    String × List ExtCall :=
  match ag.stitch resource_data with
  | .error e => (agent_error e, [.modelNormalize resource_data])
  | .ok cleaned =>
    match ag.antigravity cleaned with
    | .error e =>
        (agent_error e, [.modelNormalize resource_data, .modelScreen cleaned])
    | .ok safety =>
      if pyIn "rejected" (py_lower safety) then
        ("❌ Rejected: " ++ safety,
         [.modelNormalize resource_data, .modelScreen cleaned])
      else
        match ag.gemini cleaned with
        | .error e =>
            (agent_error e,
             [.modelNormalize resource_data, .modelScreen cleaned,
              .modelRecommend cleaned])
        | .ok recommendations =>
            ("✅ Approved!\n\n**AI Recommendations:**\n" ++ recommendations,
             [.modelNormalize resource_data, .modelScreen cleaned,
              .modelRecommend cleaned])

/-- Outcome classification of a pipeline result string. -/
inductive Verdict where
  | approved
  | rejected
  | stageError
deriving Repr, DecidableEq

/-- Classify a pipeline result string by its fixed prefix. -/
def classify (msg : String) : Verdict :=
  if pyIn "❌ Rejected:" msg then .rejected
  else if pyIn "✅ Approved!" msg then .approved
  else .stageError

/-- A document of the `resources` collection (app.py lines 155-163).
The server-assigned `firestore.SERVER_TIMESTAMP` is modelled as a `Nat`. -/
structure Listing where
  title : String
  description : String
  category : String
  owner : String
  file_url : String
  status : String
  timestamp : Nat
deriving Repr, DecidableEq

/-- The document store: the `resources` collection.  `add` appends, and a
document's id is its list index. -/
abbrev Store := List Listing

/-- A file picked in the `st.file_uploader` widget. -/
structure UploadedFile where
  name : String
  content : List Nat
deriving Repr, DecidableEq

/-- The fields of the `post_form` form (app.py lines 125-128). -/
structure FormInput where
  title : String
  description : String
  category : String
  uploaded_file : Option UploadedFile
deriving Repr, DecidableEq

/-- `str(resource_data)`: the serialization of the listing dict that is fed
to the first agent.  The exact rendering of Python's `dict.__str__` is
abstracted; no property below depends on the rendering, only on the fact
that it is a pure function of the listing. -/
def str_of_resource (r : Listing) : String :=
  "\x7btitle: " ++ r.title ++ ", description: " ++ r.description ++
    ", category: " ++ r.category ++ ", owner: " ++ r.owner ++
    ", file_url: " ++ r.file_url ++ ", status: " ++ r.status ++ "\x7d"

/-- Python's `email.split('@')[0]`: the characters before the first `'@'`
(the whole string when there is none). -/
def before_at : List Char → List Char
  | [] => []
  | c :: rest => if c == '@' then [] else c :: before_at rest

/-- The blob key, app.py line 139:
`f"{st.session_state.user['email'].split('@')[0]}_{uploaded_file.name}"`. -/
def upload_filename (email name : String) : String :=
  String.mk (before_at email.data) ++ "_" ++ name

/-- What the post-form handler ends in, as observed by the user. -/
inductive SubmitOutcome where
  | validationError (msg : String)
  | posted (ai_result : String)
  | crashed (err : String)
deriving Repr, DecidableEq

/-- Result of one pass through the post-form handler: the document store
after the pass, the ordered external calls made, and the outcome shown. -/
structure SubmitResult where
  store : Store
  calls : List ExtCall
  outcome : SubmitOutcome
deriving Repr, DecidableEq

/-- The `post_form` submission handler (app.py lines 132-170).

```python
if not title or not description:
    st.error("Title and description are required.")
else:
    file_url = ""
    if uploaded_file is not None:
        filename = f"{...email.split('@')[0]}_{uploaded_file.name}"
        blob = bucket.blob(filename)
        blob.upload_from_file(uploaded_file)
        signed_url = blob.generate_signed_url(
            version="v4", expiration=timedelta(days=365), method="GET")
        ...
    resource_data = \x7b ... "status": "available", ... \x7d
    db.collection("resources").add(resource_data)
    ai_result = process_resource_with_agents(resource_data)
```

`timedelta` is referenced on line 146 but never imported (`app.py` imports
neither `datetime` nor `timedelta`), so evaluating the arguments of
`generate_signed_url` raises `NameError` at runtime, after the blob upload
has already happened and before anything is written to the document store;
the exception is uncaught, so the run aborts.  The embedding reproduces
this as the `crashed` outcome. -/
def post_form_submit (ag : Agents) (store : Store) (f : FormInput)
    (userEmail : String) (now : Nat) : SubmitResult :=
  if f.title == "" || f.description == "" then
    ⟨store, [], .validationError "Title and description are required."⟩
  else
    match f.uploaded_file with
    | some file =>
        ⟨store, [.blobUpload (upload_filename userEmail file.name)],
         .crashed "NameError: name timedelta is not defined"⟩
    | none =>
        let resource_data : Listing :=
          ⟨f.title, f.description, f.category, userEmail, "", "available", now⟩
        let ai := process_resource_with_agents ag (str_of_resource resource_data)
        ⟨store ++ [resource_data], .storeAdd :: ai.2, .posted ai.1⟩

/-- The identity provider (`firebase_admin.auth`), stubbed.  `Except.error e`
models the call raising an exception whose text is `e`. -/
structure Idp where
  create_user : String → String → Except String Unit
  get_user_by_email : String → Except String Unit

/-- One observable call to the identity provider. -/
inductive AuthCall where
  | createUser (email : String)
  | getUser (email : String)
deriving Repr, DecidableEq

/-- What the login/signup form ends in, as observed by the user. -/
inductive LoginOutcome where
  | errorMsg (m : String)
  | signedUp
  | loggedIn (email : String)
deriving Repr, DecidableEq

/-- The `except` branch of the login/signup handler (app.py lines 106-112). -/
def auth_error_message (e : String) : LoginOutcome :=
  if pyIn "EMAIL_ALREADY_EXISTS" e then
    .errorMsg "Email already registered. Try logging in."
  else if pyIn "INVALID_EMAIL" e then
    .errorMsg "Invalid email format."
  else
    .errorMsg ("Error: " ++ e)

/-- The login/signup submit handler (app.py lines 92-112), instrumented with
the identity-provider calls it makes.  Python's `not email` on a string is
the emptiness test. -/
def login_submit (idp : Idp) (choice email password : String) :
    LoginOutcome × List AuthCall :=
  if email == "" || password == "" then
    (.errorMsg "Please fill both fields", [])
  else if choice == "Signup" then
    match idp.create_user email password with
    | .ok _ => (.signedUp, [.createUser email])
    | .error e => (auth_error_message e, [.createUser email])
  else
    match idp.get_user_by_email email with
    | .ok _ => (.loggedIn email, [.getUser email])
    | .error e => (auth_error_message e, [.getUser email])

/-- `f"{data['title']} {data['description']} {data['category']}".lower()`
(app.py line 183). -/
def search_text (d : Listing) : String :=
  py_lower (d.title ++ " " ++ d.description ++ " " ++ d.category)

/-- The listings rendered by the search section (app.py lines 178-185): the
store is queried with `status == "available"` and each streamed document is
shown when `search_query.lower() in search_text or not search_query`. -/
def search_results (store : Store) (q : String) : Store :=
  (store.filter (fun d => d.status == "available")).filter
    (fun d => pyIn (py_lower q) (search_text d) || q == "")

/-- Clicking "Request this Resource" on document `i` (app.py lines 200-201).
The button exists only for documents rendered by the search section, i.e.
whose status is `"available"` and which pass the search filter; the click
updates that document's `status` to `"requested"`. -/
def click_request (store : Store) (q : String) (i : Nat) : Store :=
  match store[i]? with
  | none => store
  | some d =>
      if d.status == "available" &&
          (pyIn (py_lower q) (search_text d) || q == "") then
        store.set i { d with status := "requested" }
      else store

/-! Deterministic stub agents used to instantiate the theorems below on
concrete inputs. -/

/-- Stub: normalizer echoes its input, screener rejects. -/
def stub_reject : Agents :=
  ⟨fun s => .ok s, fun _ => .ok "REJECTED - contains phone number",
   fun _ => .ok "1. a\n2. b\n3. c"⟩

/-- Stub: normalizer echoes its input, screener approves. -/
def stub_approve : Agents :=
  ⟨fun s => .ok s, fun _ => .ok "APPROVED - no issues",
   fun _ => .ok "1. a\n2. b\n3. c"⟩

/-- Stub whose normalizer raises a timeout error. -/
def stub_norm_fail : Agents :=
  ⟨fun _ => .error "Deadline of 600.0s exceeded", fun _ => .ok "APPROVED",
   fun _ => .ok "1. a"⟩

/-- Stub whose screener raises after a successful normalize. -/
def stub_screen_fail : Agents :=
  ⟨fun s => .ok s, fun _ => .error "Deadline of 600.0s exceeded",
   fun _ => .ok "1. a"⟩

/-- Claim C1: whenever the screener's output contains the token `"rejected"`
case-insensitively, `process_resource_with_agents` returns `"❌ Rejected: "`
followed by the screener's full output, and the recommendation stage is
never invoked. -/
theorem rejected_token_short_circuits (ag : Agents) (input cleaned safety : String)
    (hn : ag.stitch input = .ok cleaned)
    (hs : ag.antigravity cleaned = .ok safety)
    (hr : pyIn "rejected" (py_lower safety) = true) :
    (process_resource_with_agents ag input).1 = "❌ Rejected: " ++ safety ∧
    (process_resource_with_agents ag input).2.countP ExtCall.isRecommendCall = 0 := by
  simp [process_resource_with_agents, hn, hs, hr, List.countP_cons,
    ExtCall.isRecommendCall]

/-- Witness for C1 at a concrete rejecting stub. -/
theorem rejected_token_short_circuits_witness :
    (process_resource_with_agents stub_reject "Intro to ML").1 =
      "❌ Rejected: " ++ "REJECTED - contains phone number" ∧
    (process_resource_with_agents stub_reject
        "Intro to ML").2.countP ExtCall.isRecommendCall = 0 :=
  rejected_token_short_circuits stub_reject "Intro to ML" "Intro to ML"
    "REJECTED - contains phone number" rfl rfl (by decide)

/-- Claim C2: whenever the screener's output does not contain the token
`"rejected"` case-insensitively, the pipeline invokes the recommendation
stage exactly once, on the normalizer's cleaned text, and returns an
approval message containing the recommendation output verbatim. -/
theorem approved_invokes_recommender_once (ag : Agents)
    (input cleaned safety recs : String)
    (hn : ag.stitch input = .ok cleaned)
    (hs : ag.antigravity cleaned = .ok safety)
    (hr : pyIn "rejected" (py_lower safety) = false)
    (hg : ag.gemini cleaned = .ok recs) :
    (process_resource_with_agents ag input).2 =
      [.modelNormalize input, .modelScreen cleaned, .modelRecommend cleaned] ∧
    (process_resource_with_agents ag input).2.countP ExtCall.isRecommendCall = 1 ∧
    (process_resource_with_agents ag input).1 =
      "✅ Approved!\n\n**AI Recommendations:**\n" ++ recs := by
  simp [process_resource_with_agents, hn, hs, hr, hg, List.countP_cons,
    ExtCall.isRecommendCall]

/-- Witness for C2 at a concrete approving stub. -/
theorem approved_invokes_recommender_once_witness :
    (process_resource_with_agents stub_approve "Intro to ML").2 =
      [.modelNormalize "Intro to ML", .modelScreen "Intro to ML",
       .modelRecommend "Intro to ML"] ∧
    (process_resource_with_agents stub_approve
        "Intro to ML").2.countP ExtCall.isRecommendCall = 1 ∧
    (process_resource_with_agents stub_approve "Intro to ML").1 =
      "✅ Approved!\n\n**AI Recommendations:**\n" ++ "1. a\n2. b\n3. c" :=
  approved_invokes_recommender_once stub_approve "Intro to ML" "Intro to ML"
    "APPROVED - no issues" "1. a\n2. b\n3. c" rfl rfl (by decide) rfl

/-- Claim C3: if the normalizer raises, the pipeline returns the single
wrapped error message and invokes neither the screener nor the
recommender. -/
theorem normalizer_failure_aborts_pipeline (ag : Agents) (input e : String)
    (hn : ag.stitch input = .error e) :
    (process_resource_with_agents ag input).1 = "⚠️ Agent error: " ++ e ∧
    (process_resource_with_agents ag input).2.countP ExtCall.isScreenCall = 0 ∧
    (process_resource_with_agents ag input).2.countP ExtCall.isRecommendCall = 0 := by
  simp [process_resource_with_agents, hn, agent_error, List.countP_cons,
    ExtCall.isScreenCall, ExtCall.isRecommendCall]

/-- Witness for C3 at a concrete failing-normalizer stub. -/
theorem normalizer_failure_aborts_pipeline_witness :
    (process_resource_with_agents stub_norm_fail "Intro to ML").1 =
      "⚠️ Agent error: " ++ "Deadline of 600.0s exceeded" ∧
    (process_resource_with_agents stub_norm_fail
        "Intro to ML").2.countP ExtCall.isScreenCall = 0 ∧
    (process_resource_with_agents stub_norm_fail
        "Intro to ML").2.countP ExtCall.isRecommendCall = 0 :=
  normalizer_failure_aborts_pipeline stub_norm_fail "Intro to ML"
    "Deadline of 600.0s exceeded" rfl

/-- Claim C4: if the screener raises after a successful normalize, the
recommender is never invoked and the pipeline returns the single wrapped
error message. -/
theorem screener_failure_skips_recommender (ag : Agents) (input cleaned e : String)
    (hn : ag.stitch input = .ok cleaned)
    (hs : ag.antigravity cleaned = .error e) :
    (process_resource_with_agents ag input).1 = "⚠️ Agent error: " ++ e ∧
    (process_resource_with_agents ag input).2.countP ExtCall.isRecommendCall = 0 := by
  simp [process_resource_with_agents, hn, hs, agent_error, List.countP_cons,
    ExtCall.isRecommendCall]

/-- Witness for C4 at a concrete failing-screener stub. -/
theorem screener_failure_skips_recommender_witness :
    (process_resource_with_agents stub_screen_fail "Intro to ML").1 =
      "⚠️ Agent error: " ++ "Deadline of 600.0s exceeded" ∧
    (process_resource_with_agents stub_screen_fail
        "Intro to ML").2.countP ExtCall.isRecommendCall = 0 :=
  screener_failure_skips_recommender stub_screen_fail "Intro to ML" "Intro to ML"
    "Deadline of 600.0s exceeded" rfl rfl

/-- Claim C8: two pipeline invocations with extensionally identical
deterministic stages and identical input classify identically. -/
theorem pipeline_classification_deterministic (ag₁ ag₂ : Agents) (input : String)
    (h₁ : ∀ s, ag₁.stitch s = ag₂.stitch s)
    (h₂ : ∀ s, ag₁.antigravity s = ag₂.antigravity s)
    (h₃ : ∀ s, ag₁.gemini s = ag₂.gemini s) :
    classify (process_resource_with_agents ag₁ input).1 =
      classify (process_resource_with_agents ag₂ input).1 := by
  obtain ⟨f₁, g₁, k₁⟩ := ag₁
  obtain ⟨f₂, g₂, k₂⟩ := ag₂
  have hf : f₁ = f₂ := funext h₁
  have hg : g₁ = g₂ := funext h₂
  have hk : k₁ = k₂ := funext h₃
  subst hf hg hk
  rfl

/-- Witness for C8: the approving stub against itself. -/
theorem pipeline_classification_deterministic_witness :
    classify (process_resource_with_agents stub_approve "Intro to ML").1 =
      classify (process_resource_with_agents stub_approve "Intro to ML").1 :=
  pipeline_classification_deterministic stub_approve stub_approve "Intro to ML"
    (fun _ => rfl) (fun _ => rfl) (fun _ => rfl)

/-- A valid form input with no attached file. -/
def sample_form : FormInput :=
  ⟨"Intro to ML", "Good condition, 2nd edition", "Books", none⟩

/-- A valid form input with an attached file. -/
def sample_form_file : FormInput :=
  ⟨"Intro to ML", "Good condition, 2nd edition", "Books",
   some ⟨"notes.pdf", [37, 80, 68, 70]⟩⟩

/-- Claim C5: the pipeline performs only model calls (no document-store
mutation); the store resulting from a submission does not depend on the
agents; and whenever the pipeline ran at all, the store write happened
first. -/
theorem listing_persisted_independently_of_pipeline :
    (∀ (ag : Agents) (input : String),
        ∀ c ∈ (process_resource_with_agents ag input).2, c.isModelCall = true) ∧
    (∀ (ag ag' : Agents) (store : Store) (f : FormInput) (email : String) (now : Nat),
        (post_form_submit ag store f email now).store =
          (post_form_submit ag' store f email now).store) ∧
    (∀ (ag : Agents) (store : Store) (f : FormInput) (email : String) (now : Nat),
        (∃ c ∈ (post_form_submit ag store f email now).calls, c.isModelCall = true) →
        (post_form_submit ag store f email now).calls.head? = some .storeAdd) := by
  refine ⟨?_, ?_, ?_⟩
  · intro ag input c hc
    unfold process_resource_with_agents at hc
    repeat' split at hc
    all_goals simp at hc
    all_goals rcases hc with rfl | rfl | rfl <;> rfl
  · intro ag ag' store f email now
    unfold post_form_submit
    repeat' split
    all_goals rfl
  · intro ag store f email now hc
    unfold post_form_submit at hc ⊢
    obtain ⟨c, hmem, hmod⟩ := hc
    repeat' split at hmem <;> repeat' split
    all_goals simp_all [ExtCall.isModelCall]

/-- Witness for C5 at concrete stubs and a concrete submission. -/
theorem listing_persisted_independently_of_pipeline_witness :
    (ExtCall.modelNormalize "Intro to ML").isModelCall = true ∧
    (post_form_submit stub_approve [] sample_form "alice@college.edu" 0).store =
      (post_form_submit stub_reject [] sample_form "alice@college.edu" 0).store ∧
    (post_form_submit stub_approve [] sample_form
        "alice@college.edu" 0).calls.head? = some .storeAdd :=
  ⟨listing_persisted_independently_of_pipeline.1 stub_approve "Intro to ML"
      (ExtCall.modelNormalize "Intro to ML") (by decide),
   listing_persisted_independently_of_pipeline.2.1 stub_approve stub_reject []
      sample_form "alice@college.edu" 0,
   listing_persisted_independently_of_pipeline.2.2 stub_approve [] sample_form
      "alice@college.edu" 0 (by decide)⟩

/-- Claim C6 evaluated at a concrete failing input: a submission with an
attached file uploads the blob and then crashes with `NameError` (app.py
line 146 references `timedelta`, which the module never imports), so no
signed URL is generated and no listing is stored. -/
theorem file_upload_crashes_on_unbound_timedelta :
    post_form_submit stub_approve [] sample_form_file "alice@college.edu" 0 =
      ⟨[], [.blobUpload "alice_notes.pdf"],
       .crashed "NameError: name timedelta is not defined"⟩ := by
  decide

/-- Claim C9: an empty title or description on the post form, or an empty
email or password on the login form, is reported immediately: the store is
untouched and no external call of any kind is made. -/
theorem missing_fields_touch_no_external_service :
    (∀ (ag : Agents) (store : Store) (f : FormInput) (email : String) (now : Nat),
        f.title = "" ∨ f.description = "" →
        post_form_submit ag store f email now =
          ⟨store, [], .validationError "Title and description are required."⟩) ∧
    (∀ (idp : Idp) (choice email password : String),
        email = "" ∨ password = "" →
        login_submit idp choice email password =
          (.errorMsg "Please fill both fields", [])) := by
  constructor
  · intro ag store f email now h
    unfold post_form_submit
    rcases h with h | h <;> simp [h]
  · intro idp choice email password h
    unfold login_submit
    rcases h with h | h <;> simp [h]

/-- An identity-provider stub whose calls all succeed. -/
def stub_idp : Idp := ⟨fun _ _ => .ok (), fun _ => .ok ()⟩

/-- Witness for C9: an empty-description post and an empty-password login. -/
theorem missing_fields_touch_no_external_service_witness :
    post_form_submit stub_approve [] ⟨"Intro to ML", "", "Books", none⟩
        "alice@college.edu" 0 =
      ⟨[], [], .validationError "Title and description are required."⟩ ∧
    login_submit stub_idp "Login" "alice@college.edu" "" =
      (.errorMsg "Please fill both fields", []) :=
  ⟨missing_fields_touch_no_external_service.1 stub_approve []
      ⟨"Intro to ML", "", "Books", none⟩ "alice@college.edu" 0 (Or.inr rfl),
   missing_fields_touch_no_external_service.2 stub_idp "Login"
      "alice@college.edu" "" (Or.inr rfl)⟩

/-- Claim C10: a listing is rendered by the search section exactly when its
status is `"available"` and either the query is empty or the lowercased
query occurs in the lowercased `title description category` text. -/
theorem search_results_membership (store : Store) (q : String) (l : Listing) :
    l ∈ search_results store q ↔
      l ∈ store ∧ l.status = "available" ∧
        (q = "" ∨ pyIn (py_lower q) (search_text l) = true) := by
  simp only [search_results, List.mem_filter, Bool.or_eq_true, beq_iff_eq,
    and_assoc]
  tauto

/-- The listing created by `sample_form` for owner `alice@college.edu`. -/
def avail_listing : Listing :=
  ⟨"Intro to ML", "Good condition, 2nd edition", "Books", "alice@college.edu",
   "", "available", 0⟩

/-- A listing whose status has already been flipped to `"requested"`. -/
def requested_listing : Listing :=
  ⟨"Calc notes", "Semester 1", "Notes", "bob@college.edu", "", "requested", 0⟩

/-- Claim C7: every listing the post handler creates has a non-empty title,
a non-empty description and status `"available"`; the request action only
ever turns an `"available"` listing into the same listing with status
`"requested"`; and no operation moves a `"requested"` listing back (both
operations leave any `"requested"` document exactly as it was). -/
theorem status_lifecycle_invariants :
    (∀ (ag : Agents) (store : Store) (f : FormInput) (email : String) (now : Nat),
        ∀ l ∈ (post_form_submit ag store f email now).store,
          l ∈ store ∨
            (l.title ≠ "" ∧ l.description ≠ "" ∧ l.status = "available")) ∧
    (∀ (store : Store) (q : String) (i j : Nat),
        (click_request store q i)[j]? = store[j]? ∨
        ∃ d, store[j]? = some d ∧ d.status = "available" ∧
          (click_request store q i)[j]? = some { d with status := "requested" }) ∧
    (∀ (store : Store) (q : String) (i j : Nat) (d : Listing),
        store[j]? = some d → d.status = "requested" →
        (click_request store q i)[j]? = some d) ∧
    (∀ (ag : Agents) (store : Store) (f : FormInput) (email : String) (now : Nat)
        (j : Nat) (d : Listing), store[j]? = some d →
        (post_form_submit ag store f email now).store[j]? = some d) := by
  refine ⟨?_, ?_, ?_, ?_⟩
  · intro ag store f email now l hl
    unfold post_form_submit at hl
    by_cases hv : (f.title == "" || f.description == "") = true
    · rw [if_pos hv] at hl; exact Or.inl hl
    · rw [if_neg hv] at hl
      cases hu : f.uploaded_file with
      | some file => simp only [hu] at hl; exact Or.inl hl
      | none =>
        simp only [hu] at hl
        rcases List.mem_append.mp hl with h | h
        · exact Or.inl h
        · right
          simp only [List.mem_singleton] at h
          subst h
          simp only [Bool.or_eq_true, beq_iff_eq, not_or] at hv
          exact ⟨hv.1, hv.2, rfl⟩
  · intro store q i j
    unfold click_request
    cases hi : store[i]? with
    | none => exact Or.inl rfl
    | some d =>
      dsimp only
      by_cases hcond : (d.status == "available" &&
          (pyIn (py_lower q) (search_text d) || q == "")) = true
      · rw [if_pos hcond]
        by_cases hij : i = j
        · subst hij
          right
          obtain ⟨hlt, hget⟩ := List.getElem?_eq_some.mp hi
          refine ⟨d, hi, ?_, ?_⟩
          · exact beq_iff_eq.mp ((Bool.and_eq_true _ _).mp hcond).1
          · rw [List.getElem?_set]
            simp [hlt]
        · exact Or.inl (List.getElem?_set_ne hij)
      · rw [if_neg hcond]; exact Or.inl rfl
  · intro store q i j d hj hst
    unfold click_request
    cases hi : store[i]? with
    | none => exact hj
    | some d' =>
      dsimp only
      by_cases hcond : (d'.status == "available" &&
          (pyIn (py_lower q) (search_text d') || q == "")) = true
      · rw [if_pos hcond]
        by_cases hij : i = j
        · subst hij
          rw [hi] at hj
          injection hj with h
          subst h
          exfalso
          have h1 := beq_iff_eq.mp ((Bool.and_eq_true _ _).mp hcond).1
          rw [hst] at h1
          exact absurd h1 (by decide)
        · rw [List.getElem?_set_ne hij]; exact hj
      · rw [if_neg hcond]; exact hj
  · intro ag store f email now j d hj
    unfold post_form_submit
    by_cases hv : (f.title == "" || f.description == "") = true
    · rw [if_pos hv]; exact hj
    · rw [if_neg hv]
      cases hu : f.uploaded_file with
      | some file => simp only [hu]; exact hj
      | none =>
        simp only [hu]
        have hlt : j < store.length := (List.getElem?_eq_some.mp hj).1
        show (store ++ [_])[j]? = some d
        rw [List.getElem?_append_left hlt]
        exact hj

/-- Witness for C7 at concrete listings and operations. -/
theorem status_lifecycle_invariants_witness :
    (avail_listing ∈ ([] : Store) ∨
      (avail_listing.title ≠ "" ∧ avail_listing.description ≠ "" ∧
        avail_listing.status = "available")) ∧
    ((click_request [avail_listing] "" 0)[0]? = ([avail_listing] : Store)[0]? ∨
      ∃ d, ([avail_listing] : Store)[0]? = some d ∧ d.status = "available" ∧
        (click_request [avail_listing] "" 0)[0]? =
          some { d with status := "requested" }) ∧
    (click_request [requested_listing] "" 0)[0]? = some requested_listing ∧
    (post_form_submit stub_approve [requested_listing] sample_form
        "alice@college.edu" 0).store[0]? = some requested_listing :=
  ⟨status_lifecycle_invariants.1 stub_approve [] sample_form "alice@college.edu" 0
      avail_listing (by decide),
   status_lifecycle_invariants.2.1 [avail_listing] "" 0 0,
   status_lifecycle_invariants.2.2.1 [requested_listing] "" 0 0 requested_listing
      rfl rfl,
   status_lifecycle_invariants.2.2.2 stub_approve [requested_listing] sample_form
      "alice@college.edu" 0 0 requested_listing rfl⟩

end CampusShare
